import Mathlib

/-!
Shallow embedding of the assessment engine of the `pop` e-learning platform
(`src/app/utils/quiz_grader.py`, `src/app/utils/quiz_randomizer.py`,
`src/app/services/quiz_attempt_service.py`, `src/app/services/quiz_service.py`,
`src/app/models/{question,quiz,quiz_attempt}.py`), together with proofs about
its grading, scoring, fingerprinting and attempt-lifecycle behavior.

Modelling conventions:
- Python ints are `Int` (exact); question indices coming from `enumerate` are
  cast to `Int` so they can be compared with arbitrary submitted indices.
- Python float score arithmetic is modelled exactly over `ℚ`; `round(x, 2)`
  is modelled as exact round-half-to-even at two decimals (`roundTo2`).
- Python exceptions (`ValueError` from the graders, `AttributeError`,
  `random.sample` errors) are modelled with `Except String`.
- JSON dicts are modelled by structures; `dict.get(k)` of an optional key is
  an `Option` field.  The `answers_given` JSON dict of an attempt, whose keys
  are the string `'_quiz_instance'` plus decimal question-id strings, is
  modelled as a structure holding the optional instance block and an
  association list keyed by the (injectively string-encoded) question id.
- `random.sample` / `random.shuffle` draw from a module-global generator; they
  are modelled by deterministic stand-ins (take a prefix / identity shuffle).
  No theorem below depends on which subset or permutation is drawn, only on
  sizes and boundary behavior, which the stand-ins share with the originals.
-/

/-- One entry of the `answers` JSON array of a question
(`{text, is_correct, explanation}`), from `src/app/models/question.py`. -/
structure AnswerOption where
  text : String
  is_correct : Bool
  explanation : Option String
deriving DecidableEq, Repr

/-- `Question` model (`src/app/models/question.py`). -/
structure Question where
  id : Int
  quiz_id : Int
  question_text : String
  question_type : String
  answers : List AnswerOption
  points : Int
  order_index : Int
deriving DecidableEq, Repr

/-- `Question.correct_answers`: indices of options flagged correct
(`[i for i, answer in enumerate(self.answers) if answer.get('is_correct', False)]`). -/
def Question.correct_answers (q : Question) : List Int :=
  (q.answers.enum.filter (fun p => p.2.is_correct)).map (fun p => (p.1 : Int))

/-- A submitted answer payload: a bare index or a list of indices, as accepted
by the graders (`isinstance(user_answer, int)` dispatch). -/
inductive UserAnswer where
  | int (n : Int)
  | list (l : List Int)
deriving DecidableEq, Repr

/-- Normalization `[user_answer] if isinstance(user_answer, int) else user_answer`
used by both graders. -/
def UserAnswer.toList : UserAnswer → List Int
  | .int n => [n]
  | .list l => l

/-- The result dict returned by `grade_single_choice` / `grade_multiple_choice`. -/
structure GradeResult where
  correct : Bool
  points_earned : Int
  correct_answers : List Int
  user_answers : List Int
deriving DecidableEq, Repr

/-- `grade_single_choice` (`src/app/utils/quiz_grader.py`).  The Python
expression `len(user_answers) == 1 and user_answers[0] in correct_answers`
is modelled with `headD 0`; the default is only reachable when the length
test already failed, where the conjunction is false either way. -/
def grade_single_choice (question : Question) (user_answer : UserAnswer) :
    Except String GradeResult :=
  if question.question_type ≠ "single_choice" then
    .error "Question type must be 'single_choice'"
  else
    let correct_answers := question.correct_answers
    let user_answers := user_answer.toList
    let is_correct :=
      user_answers.length == 1 && correct_answers.contains (user_answers.headD 0)
    let points_earned := if is_correct then question.points else 0
    .ok ⟨is_correct, points_earned, correct_answers, user_answers⟩

/-- `grade_multiple_choice` (`src/app/utils/quiz_grader.py`).  Python compares
`set(user_answers) == set(correct_answers)`; sets of ints are modelled as
`Finset Int` via `toFinset`, and the returned lists (whose Python iteration
order is unspecified) are modelled as `dedup`s of the inputs. -/
def grade_multiple_choice (question : Question) (user_answers : UserAnswer) :
    Except String GradeResult :=
  if question.question_type ≠ "multiple_choice" then
    .error "Question type must be 'multiple_choice'"
  else
    let correct_answers := question.correct_answers
    let user_answer_set := user_answers.toList
    let is_correct := decide (user_answer_set.toFinset = correct_answers.toFinset)
    let points_earned := if is_correct then question.points else 0
    .ok ⟨is_correct, points_earned, correct_answers.dedup, user_answer_set.dedup⟩

/-- `Question.check_answer` (`src/app/models/question.py`): the model-level
checker, which for `single_choice` additionally requires the whole correct
set to be matched (unlike `grade_single_choice`). -/
def Question.check_answer (q : Question) (selected_indices : UserAnswer) : Bool :=
  let correct := q.correct_answers.toFinset
  let selected := selected_indices.toList.toFinset
  if q.question_type == "single_choice" then
    selected.card == 1 && decide (selected = correct)
  else
    decide (selected = correct)

/-- The `_quiz_instance` / quiz-instance dictionary shape: produced in full by
`generate_quiz_instance` and stored (without the `questions` key, i.e. with
`questions = []` under `dict.get('questions', [])`) by `start_attempt`. -/
structure InstQuestion where
  question_id : Int
  question_text : String
  question_type : String
  points : Int
  order_index : Int
  answers : List AnswerOption
  answer_mapping : List (Nat × Nat)
deriving DecidableEq, Repr

/-- Quiz-instance dict: `quiz_id`, `questions`, `question_ids`, and the
`quiz_hash` key that is added after hashing (absent before). -/
structure QuizInstanceDict where
  quiz_id : Int
  questions : List InstQuestion
  question_ids : List Int
  quiz_hash : Option String
deriving DecidableEq, Repr

/-- The `answers_given` JSON dict of an attempt: the optional
`'_quiz_instance'` entry plus the per-question entries keyed by
`str(question_id)`. -/
structure AnswersGiven where
  quiz_instance : Option QuizInstanceDict
  answers : List (Int × UserAnswer)
deriving DecidableEq, Repr

/-- `answers_given.get(str(question_id))`. -/
def AnswersGiven.get (ag : AnswersGiven) (question_id : Int) : Option UserAnswer :=
  (ag.answers.find? (fun p => p.1 == question_id)).map (fun p => p.2)

/-- Replace-or-append update of an association list, mirroring Python dict
assignment `answers[str(question_id)] = answer` (which keeps insertion order
for an existing key and appends a fresh key). -/
def setEntry (l : List (Int × UserAnswer)) (question_id : Int) (answer : UserAnswer) :
    List (Int × UserAnswer) :=
  if l.any (fun p => p.1 == question_id) then
    l.map (fun p => if p.1 == question_id then (question_id, answer) else p)
  else
    l ++ [(question_id, answer)]

/-- `answers_given[str(question_id)] = answer` on the structured dict; the
`'_quiz_instance'` entry is untouched because route-supplied question ids are
ints, never the string `'_quiz_instance'`. -/
def AnswersGiven.set (ag : AnswersGiven) (question_id : Int) (answer : UserAnswer) :
    AnswersGiven :=
  { ag with answers := setEntry ag.answers question_id answer }

/-- `Quiz` model (`src/app/models/quiz.py`); fields not read by the assessment
engine are omitted. -/
structure Quiz where
  id : Int
  title : String
  question_pool_size : Option Int
  minimum_score : Int
  randomize_answers : Bool
  questions : List Question
deriving DecidableEq, Repr

/-- `QuizAttempt` model (`src/app/models/quiz_attempt.py`).  The SQLAlchemy
`quiz` relationship is modelled as an embedded optional `Quiz` snapshot:
it denotes the catalog state visible when the attempt is graded.
Timestamps are seconds as integers. -/
structure QuizAttempt where
  id : Int
  user_id : Int
  quiz_id : Int
  answers_given : AnswersGiven
  score : ℚ
  passed : Bool
  started_at : Int
  completed_at : Option Int
  time_taken : Option Int
  quiz : Option Quiz
deriving DecidableEq, Repr

/-- `QuizAttempt.is_completed`: `completed_at is not None`. -/
def QuizAttempt.is_completed (a : QuizAttempt) : Bool :=
  a.completed_at.isSome

/-- Exact round-half-to-even of a rational to an integer, the semantics of
Python `round` (the score values reaching `round` in this codebase are modelled
exactly over `ℚ`). -/
def roundHalfEven (x : ℚ) : ℤ :=
  if x - ⌊x⌋ < 1/2 then ⌊x⌋
  else if 1/2 < x - ⌊x⌋ then ⌊x⌋ + 1
  else if ⌊x⌋ % 2 = 0 then ⌊x⌋ else ⌊x⌋ + 1

/-- Python `round(x, 2)` over exact rationals. -/
def roundTo2 (x : ℚ) : ℚ :=
  (roundHalfEven (x * 100) : ℚ) / 100

/-- The dispatch in the loop body of `calculate_total_score`
(`if question.question_type == 'single_choice': ... else: ...`). -/
def gradeQ (question : Question) (user_answer : UserAnswer) : Except String GradeResult :=
  if question.question_type == "single_choice" then
    grade_single_choice question user_answer
  else
    grade_multiple_choice question user_answer

/-- Question selection in `calculate_total_score`
(`src/app/utils/quiz_grader.py` lines 112-120): take the stored
`question_ids` of the `_quiz_instance` block if nonempty, filtering the quiz's
current questions by membership; otherwise use all questions of the quiz. -/
def selectedQuestions (quiz : Quiz) (ag : AnswersGiven) : List Question :=
  let selected_question_ids := (ag.quiz_instance.map (fun qi => qi.question_ids)).getD []
  if selected_question_ids = [] then
    quiz.questions
  else
    quiz.questions.filter (fun q => selected_question_ids.contains q.id)

/-- The `for question in questions` accumulation loop of
`calculate_total_score`, with accumulators
`(points_earned, total_points, questions_correct, total_questions)`.
A grading `ValueError` (unknown question type) propagates as `.error`. -/
def gradeLoop (ag : AnswersGiven) :
    List Question → Int → Int → Nat → Nat → Except String (Int × Int × Nat × Nat)
  | [], pe, tp, qc, tq => .ok (pe, tp, qc, tq)
  | q :: rest, pe, tp, qc, tq =>
    match ag.get q.id with
    | none => gradeLoop ag rest pe (tp + q.points) qc (tq + 1)
    | some ua =>
      match gradeQ q ua with
      | .error e => .error e
      | .ok r =>
        gradeLoop ag rest (pe + r.points_earned) (tp + q.points)
          (if r.correct then qc + 1 else qc) (tq + 1)

/-- The dict returned by `calculate_total_score`. -/
structure ScoreData where
  score_percentage : ℚ
  points_earned : Int
  total_points : Int
  questions_correct : Nat
  total_questions : Nat
deriving DecidableEq, Repr

/-- `calculate_total_score` (`src/app/utils/quiz_grader.py` lines 82-151). -/
def calculate_total_score (attempt : QuizAttempt) : Except String ScoreData :=
  match attempt.quiz with
  | none => .ok ⟨0, 0, 0, 0, 0⟩
  | some quiz =>
    match gradeLoop attempt.answers_given
        (selectedQuestions quiz attempt.answers_given) 0 0 0 0 with
    | .error e => .error e
    | .ok (pe, tp, qc, tq) =>
      let score_percentage : ℚ := if 0 < tp then ((pe : ℚ) / (tp : ℚ)) * 100 else 0
      .ok ⟨roundTo2 score_percentage, pe, tp, qc, tq⟩

/-- `determine_pass_fail` (`src/app/utils/quiz_grader.py` lines 239-250):
`score >= minimum_score`. -/
def determine_pass_fail (score minimum_score : ℚ) : Bool :=
  decide (minimum_score ≤ score)

/-- The dict returned by `grade_attempt`. -/
structure GradingSummary where
  score_percentage : ℚ
  points_earned : Int
  total_points : Int
  questions_correct : Nat
  total_questions : Nat
  passed : Bool
deriving DecidableEq, Repr

/-- `grade_attempt` (`src/app/services/quiz_attempt_service.py` lines 142-174).
`attempt.quiz.minimum_score` raises `AttributeError` when the relationship is
absent, modelled as `.error`. -/
def grade_attempt (attempt : QuizAttempt) : Except String GradingSummary :=
  match calculate_total_score attempt with
  | .error e => .error e
  | .ok sd =>
    match attempt.quiz with
    | none => .error "'NoneType' object has no attribute 'minimum_score'"
    | some quiz =>
      .ok ⟨sd.score_percentage, sd.points_earned, sd.total_points,
           sd.questions_correct, sd.total_questions,
           determine_pass_fail sd.score_percentage (quiz.minimum_score : ℚ)⟩

/-- The attempt table, keyed by attempt id (`QuizAttempt.query.get`). -/
structure AttemptStore where
  attempts : List (Int × QuizAttempt)
deriving DecidableEq, Repr

/-- `QuizAttempt.query.get(attempt_id)`. -/
def AttemptStore.get (s : AttemptStore) (attempt_id : Int) : Option QuizAttempt :=
  (s.attempts.find? (fun p => p.1 == attempt_id)).map (fun p => p.2)

/-- Committing an updated attempt row (replace by id, insert if new). -/
def AttemptStore.set (s : AttemptStore) (attempt_id : Int) (a : QuizAttempt) :
    AttemptStore :=
  if s.attempts.any (fun p => p.1 == attempt_id) then
    ⟨s.attempts.map (fun p => if p.1 == attempt_id then (attempt_id, a) else p)⟩
  else
    ⟨s.attempts ++ [(attempt_id, a)]⟩

/-- `submit_answer` (`src/app/services/quiz_attempt_service.py` lines 60-96).
Returns the Python `(attempt, error_message)` pair together with the
post-commit store. -/
def submit_answer (store : AttemptStore) (attempt_id question_id : Int)
    (answer : UserAnswer) : (Option QuizAttempt × Option String) × AttemptStore :=
  match store.get attempt_id with
  | none => ((none, some "Tentative introuvable."), store)
  | some attempt =>
    if attempt.is_completed then
      ((none, some "Cette tentative est déjà terminée."), store)
    else
      let attempt' :=
        { attempt with answers_given := attempt.answers_given.set question_id answer }
      ((some attempt', none), store.set attempt_id attempt')

/-- `complete_attempt` (`src/app/services/quiz_attempt_service.py` lines
99-139).  `now` stands for `datetime.utcnow()`; a grading exception is caught
by the `except` clause, which rolls the session back (store unchanged). -/
def complete_attempt (store : AttemptStore) (attempt_id now : Int) :
    (Option QuizAttempt × Option String) × AttemptStore :=
  match store.get attempt_id with
  | none => ((none, some "Tentative introuvable."), store)
  | some attempt =>
    if attempt.is_completed then
      ((none, some "Cette tentative est déjà terminée."), store)
    else
      let a1 := { attempt with
        completed_at := some now,
        time_taken := some (now - attempt.started_at) }
      match grade_attempt a1 with
      | .error e =>
        ((none, some ("Erreur lors de la finalisation de la tentative: " ++ e)), store)
      | .ok g =>
        let a2 := { a1 with score := g.score_percentage, passed := g.passed }
        ((some a2, none), store.set attempt_id a2)

/-- `start_attempt` (`src/app/services/quiz_attempt_service.py` lines 13-57).
`quiz?` is the result of `Quiz.query.get(quiz_id)`; `new_id` the id assigned
by the insert.  Only the `quiz_id`, `question_ids` and `quiz_hash` keys of the
generated instance are copied into the stored `_quiz_instance` block (so its
`questions` key is absent, i.e. `[]` under `get('questions', [])`); a missing
`quiz_hash` key is a `KeyError` caught by the `except` clause. -/
def start_attempt (store : AttemptStore) (quiz? : Option Quiz)
    (user_id quiz_id : Int) (quiz_instance : QuizInstanceDict) (now new_id : Int) :
    (Option QuizAttempt × Option String) × AttemptStore :=
  match quiz? with
  | none => ((none, some "Quiz introuvable."), store)
  | some _ =>
    match quiz_instance.quiz_hash with
    | none =>
      ((none, some "Erreur lors du démarrage de la tentative: 'quiz_hash'"), store)
    | some h =>
      let answers_given : AnswersGiven :=
        { quiz_instance := some
            { quiz_id := quiz_instance.quiz_id,
              questions := [],
              question_ids := quiz_instance.question_ids,
              quiz_hash := some h },
          answers := [] }
      let attempt : QuizAttempt :=
        { id := new_id, user_id := user_id, quiz_id := quiz_id,
          answers_given := answers_given, score := 0, passed := false,
          started_at := now, completed_at := none, time_taken := none,
          quiz := quiz? }
      ((some attempt, none), store.set new_id attempt)

/-- Truncation to a 32-bit word. -/
def w32 (n : Nat) : Nat := n % 4294967296

/-- 32-bit right rotation. -/
def rotr32 (k n : Nat) : Nat := w32 ((n >>> k) ||| (n <<< (32 - k)))

/-- 32-bit modular addition. -/
def add32 (a b : Nat) : Nat := w32 (a + b)

/-- SHA-256 round constants (FIPS 180-4). -/
def K256 : List Nat :=
  [1116352408, 1899447441, 3049323471, 3921009573, 961987163,
   1508970993, 2453635748, 2870763221, 3624381080, 310598401,
   607225278, 1426881987, 1925078388, 2162078206, 2614888103,
   3248222580, 3835390401, 4022224774, 264347078, 604807628,
   770255983, 1249150122, 1555081692, 1996064986, 2554220882,
   2821834349, 2952996808, 3210313671, 3336571891, 3584528711,
   113926993, 338241895, 666307205, 773529912, 1294757372,
   1396182291, 1695183700, 1986661051, 2177026350, 2456956037,
   2730485921, 2820302411, 3259730800, 3345764771, 3516065817,
   3600352804, 4094571909, 275423344, 430227734, 506948616,
   659060556, 883997877, 958139571, 1322822218, 1537002063,
   1747873779, 1955562222, 2024104815, 2227730452, 2361852424,
   2428436474, 2756734187, 3204031479, 3329325298]

/-- Working state of the SHA-256 compression function. -/
structure SHAState where
  a : Nat
  b : Nat
  c : Nat
  d : Nat
  e : Nat
  f : Nat
  g : Nat
  h : Nat
deriving DecidableEq, Repr

/-- SHA-256 initial hash value. -/
def sha256Init : SHAState :=
  ⟨1779033703, 3144134277, 1013904242, 2773480762,
   1359893119, 2600822924, 528734635, 1541459225⟩

/-- Big-endian 32-bit words from a byte list (four bytes per word). -/
def bytesToWords : List Nat → List Nat
  | b0 :: b1 :: b2 :: b3 :: rest =>
    (((b0 * 256 + b1) * 256 + b2) * 256 + b3) :: bytesToWords rest
  | _ => []

/-- Message-schedule extension of a 16-word block to 64 words. -/
def msgSchedule (ws : List Nat) : Array Nat :=
  (List.range 48).foldl
    (fun arr _ =>
      let n := arr.size
      let s0 :=
        let x := arr.getD (n - 15) 0
        rotr32 7 x ^^^ rotr32 18 x ^^^ (x >>> 3)
      let s1 :=
        let x := arr.getD (n - 2) 0
        rotr32 17 x ^^^ rotr32 19 x ^^^ (x >>> 10)
      arr.push (add32 (add32 s1 (arr.getD (n - 7) 0)) (add32 s0 (arr.getD (n - 16) 0))))
    ws.toArray

/-- One round of the SHA-256 compression function. -/
def shaRound (st : SHAState) (kt wt : Nat) : SHAState :=
  let bs1 := rotr32 6 st.e ^^^ rotr32 11 st.e ^^^ rotr32 25 st.e
  let ch := (st.e &&& st.f) ^^^ ((st.e ^^^ 0xffffffff) &&& st.g)
  let t1 := add32 st.h (add32 bs1 (add32 ch (add32 kt wt)))
  let bs0 := rotr32 2 st.a ^^^ rotr32 13 st.a ^^^ rotr32 22 st.a
  let maj := (st.a &&& st.b) ^^^ (st.a &&& st.c) ^^^ (st.b &&& st.c)
  let t2 := add32 bs0 maj
  ⟨add32 t1 t2, st.a, st.b, st.c, add32 st.d t1, st.e, st.f, st.g⟩

/-- Process one padded 64-byte block. -/
def processBlock (hs : SHAState) (block : List Nat) : SHAState :=
  let ws := msgSchedule (bytesToWords block)
  let fin := (List.range 64).foldl
    (fun st i => shaRound st (K256.getD i 0) (ws.getD i 0)) hs
  ⟨add32 hs.a fin.a, add32 hs.b fin.b, add32 hs.c fin.c, add32 hs.d fin.d,
   add32 hs.e fin.e, add32 hs.f fin.f, add32 hs.g fin.g, add32 hs.h fin.h⟩

/-- Big-endian 8-byte encoding of the bit length. -/
def lenBE8 (n : Nat) : List Nat :=
  (List.range 8).map (fun i => (n >>> ((7 - i) * 8)) % 256)

/-- SHA-256 padding: `0x80`, zeros to 56 mod 64, then the 64-bit bit length. -/
def padMessage (msg : List Nat) : List Nat :=
  let len := msg.length
  let zeros := (64 + 56 - ((len + 1) % 64)) % 64
  msg ++ [0x80] ++ List.replicate zeros 0 ++ lenBE8 (len * 8)

/-- Split a byte list into 64-byte blocks. -/
def toBlocks (l : List Nat) : List (List Nat) :=
  if h : l = [] then []
  else l.take 64 :: toBlocks (l.drop 64)
termination_by l.length
decreasing_by
  simp only [List.length_drop]
  exact Nat.sub_lt (List.length_pos.mpr h) (by norm_num)

/-- Lowercase hex digit. -/
def hexChar (n : Nat) : Char :=
  if n < 10 then Char.ofNat (48 + n) else Char.ofNat (87 + n)

/-- Eight-digit lowercase hex rendering of a 32-bit word. -/
def toHex8 (n : Nat) : String :=
  String.mk ((List.range 8).map (fun i => hexChar ((n >>> (28 - 4 * i)) &&& 15)))

/-- `hashlib.sha256(bytes).hexdigest()`: the full SHA-256 digest of a byte
list, hex-encoded. -/
def sha256Hex (msg : List Nat) : String :=
  let fin := (toBlocks (padMessage msg)).foldl processBlock sha256Init
  toHex8 fin.a ++ toHex8 fin.b ++ toHex8 fin.c ++ toHex8 fin.d ++
  toHex8 fin.e ++ toHex8 fin.f ++ toHex8 fin.g ++ toHex8 fin.h

/-- UTF-8 encoding of one code point (Python `str.encode()`). -/
def utf8Encode (c : Nat) : List Nat :=
  if c < 0x80 then [c]
  else if c < 0x800 then [0xc0 + c / 64, 0x80 + c % 64]
  else if c < 0x10000 then [0xe0 + c / 4096, 0x80 + (c / 64) % 64, 0x80 + c % 64]
  else [0xf0 + c / 262144, 0x80 + (c / 4096) % 64, 0x80 + (c / 64) % 64, 0x80 + c % 64]

/-- `str.encode()`: UTF-8 bytes of a string. -/
def strToBytes (s : String) : List Nat :=
  (s.data.map (fun ch => utf8Encode ch.toNat)).flatten

/-- Insert a key-value pair into a key-sorted list (for `sort_keys=True` on an
answer-mapping dict, whose keys are the option positions). -/
def insertPair (p : Nat × Nat) : List (Nat × Nat) → List (Nat × Nat)
  | [] => [p]
  | q :: rest => if p.1 ≤ q.1 then p :: q :: rest else q :: insertPair p rest

/-- Sort mapping entries by key. -/
def sortPairsByKey (l : List (Nat × Nat)) : List (Nat × Nat) :=
  l.foldr insertPair []

/-- `json.dumps` of a list of ints (default separators). -/
def jsonIntList (l : List Int) : String :=
  "[" ++ String.intercalate ", " (l.map toString) ++ "]"

/-- `json.dumps` of an answer-mapping dict with `sort_keys=True` (keys are
rendered as decimal strings, as Python renders int dict keys). -/
def jsonMapping (m : List (Nat × Nat)) : String :=
  "\x7b" ++
    String.intercalate ", "
      ((sortPairsByKey m).map (fun p => "\"" ++ toString p.1 ++ "\": " ++ toString p.2)) ++
  "\x7d"

/-- `json.dumps` of the list of answer mappings. -/
def jsonMappingList (ms : List (List (Nat × Nat))) : String :=
  "[" ++ String.intercalate ", " (ms.map jsonMapping) ++ "]"

/-- The `instance_data` dict built by `generate_quiz_hash`
(`src/app/utils/quiz_randomizer.py` lines 91-95): note that `question_ids`
and `mappings` are projected from the `questions` entry of the given dict,
not from its `question_ids` key. -/
structure InstanceData where
  quiz_id : Int
  question_ids : List Int
  mappings : List (List (Nat × Nat))
deriving DecidableEq, Repr

/-- Projection of a quiz-instance dict to its `instance_data`. -/
def instanceData (quiz_instance : QuizInstanceDict) : InstanceData :=
  { quiz_id := quiz_instance.quiz_id,
    question_ids := quiz_instance.questions.map (fun q => q.question_id),
    mappings := quiz_instance.questions.map (fun q => q.answer_mapping) }

/-- `json.dumps(instance_data, sort_keys=True)`: the top-level keys in sorted
order are `mappings`, `question_ids`, `quiz_id`. -/
def dumpsInstanceData (d : InstanceData) : String :=
  "\x7b\"mappings\": " ++ jsonMappingList d.mappings ++
  ", \"question_ids\": " ++ jsonIntList d.question_ids ++
  ", \"quiz_id\": " ++ toString d.quiz_id ++ "\x7d"

/-- `generate_quiz_hash` (`src/app/utils/quiz_randomizer.py` lines 76-101). -/
def generate_quiz_hash (quiz_instance : QuizInstanceDict) : String :=
  sha256Hex (strToBytes (dumpsInstanceData (instanceData quiz_instance)))

/-- `validate_quiz_integrity` (`src/app/utils/quiz_randomizer.py` lines
104-131). -/
def validate_quiz_integrity (attempt : Option QuizAttempt) (quiz_hash : String) :
    Bool :=
  match attempt with
  | none => false
  | some a =>
    if quiz_hash == "" then false
    else
      match a.answers_given.quiz_instance with
      | none => true
      | some quiz_instance => generate_quiz_hash quiz_instance == quiz_hash

/-- `random.sample(l, k)` modelled deterministically: the error behavior
(negative or oversized `k`) is exact; the drawn `k`-element subset is fixed to
the first `k` elements.  No theorem below depends on which subset a real run
draws, only on its size and on the error/empty boundary cases, which this
stand-in shares with `random.sample`. -/
def pySample {α : Type} (l : List α) (k : Int) : Except String (List α) :=
  if k < 0 ∨ (l.length : Int) < k then
    .error "Sample larger than population or is negative"
  else
    .ok (l.take k.toNat)

/-- `randomize_question_selection` (`src/app/utils/quiz_randomizer.py` lines
13-31). -/
def randomize_question_selection (quiz : Quiz) (pool_size : Option Int) :
    Except String (List Question) :=
  let all_questions := quiz.questions
  match pool_size with
  | none => .ok all_questions
  | some k =>
    if (all_questions.length : Int) ≤ k then .ok all_questions
    else pySample all_questions (min k (all_questions.length : Int))

/-- `Quiz.get_questions_for_attempt` (`src/app/models/quiz.py` lines 65-79).
The Python guard `if self.question_pool_size and self.question_pool_size <
len(all_questions)` treats both `None` and `0` as falsy. -/
def Quiz.get_questions_for_attempt (quiz : Quiz) : Except String (List Question) :=
  let all_questions := quiz.questions
  match quiz.question_pool_size with
  | none => .ok all_questions
  | some k =>
    if k ≠ 0 ∧ k < (all_questions.length : Int) then pySample all_questions k
    else .ok all_questions

/-- The dict returned by `randomize_answer_order`. -/
structure ShuffleResult where
  question_id : Int
  shuffled_answers : List AnswerOption
  answer_mapping : List (Nat × Nat)
deriving DecidableEq, Repr

/-- `randomize_answer_order` (`src/app/utils/quiz_randomizer.py` lines 34-73),
with `random.shuffle` modelled by the identity permutation: a real run pairs a
permutation of the options with the matching new-position → original-position
map.  No theorem below depends on which permutation is drawn. -/
def randomize_answer_order (question : Question) : ShuffleResult :=
  if question.answers = [] then
    ⟨question.id, [], []⟩
  else
    ⟨question.id, question.answers,
     (List.range question.answers.length).map (fun i => (i, i))⟩

/-- `generate_quiz_instance` (`src/app/services/quiz_service.py` lines
134-198).  `quiz?` is the result of `Quiz.query.get(quiz_id)`; `.ok none`
models a `None` return and `.error` a propagated exception. -/
def generate_quiz_instance (quiz? : Option Quiz) :
    Except String (Option QuizInstanceDict) :=
  match quiz? with
  | none => .ok none
  | some quiz =>
    match randomize_question_selection quiz quiz.question_pool_size with
    | .error e => .error e
    | .ok selected_questions =>
      if selected_questions = [] then .ok none
      else
        let questions_data := selected_questions.map (fun question =>
          if quiz.randomize_answers then
            let randomized := randomize_answer_order question
            { question_id := question.id,
              question_text := question.question_text,
              question_type := question.question_type,
              points := question.points,
              order_index := question.order_index,
              answers := randomized.shuffled_answers,
              answer_mapping := randomized.answer_mapping }
          else
            { question_id := question.id,
              question_text := question.question_text,
              question_type := question.question_type,
              points := question.points,
              order_index := question.order_index,
              answers := question.answers,
              answer_mapping :=
                (List.range question.answers.length).map (fun i => (i, i)) })
        let question_ids := selected_questions.map (fun q => q.id)
        let qi : QuizInstanceDict :=
          { quiz_id := quiz.id, questions := questions_data,
            question_ids := question_ids, quiz_hash := none }
        .ok (some { qi with quiz_hash := some (generate_quiz_hash qi) })

/-- A question type the grader dispatch understands; any other type makes
`grade_multiple_choice` raise `ValueError` inside the scoring loop. -/
def knownType (q : Question) : Prop :=
  q.question_type = "single_choice" ∨ q.question_type = "multiple_choice"

instance (q : Question) : Decidable (knownType q) := by
  unfold knownType; infer_instance

/-- Specification-side sum of the point values of a question list. -/
def pointsOf (qs : List Question) : Int :=
  (qs.map (fun q => q.points)).sum

/-- Whether the stored answer for `q` (if any) is graded correct by the
scoring loop's dispatch. -/
def markedCorrect (ag : AnswersGiven) (q : Question) : Bool :=
  match ag.get q.id with
  | none => false
  | some ua =>
    match gradeQ q ua with
    | .ok r => r.correct
    | .error _ => false

/-- Points the scoring loop credits for `q` under answers `ag`. -/
def creditOf (ag : AnswersGiven) (q : Question) : Int :=
  match ag.get q.id with
  | none => 0
  | some ua =>
    match gradeQ q ua with
    | .ok r => r.points_earned
    | .error _ => 0

/-- Specification-side sum of credited points over a question list. -/
def earnedOf (ag : AnswersGiven) (qs : List Question) : Int :=
  (qs.map (creditOf ag)).sum

/-- Specification-side count of questions graded correct. -/
def correctCountOf (ag : AnswersGiven) (qs : List Question) : Nat :=
  qs.countP (markedCorrect ag)

/-- A correct option (fixture). -/
def optC : AnswerOption := ⟨"option", true, none⟩

/-- A wrong option (fixture). -/
def optW : AnswerOption := ⟨"option", false, none⟩

/-- Fixture: a `single_choice` question with two options flagged correct. -/
def qSingleTwoCorrect : Question :=
  ⟨11, 1, "pick one", "single_choice", [optC, optC, optW], 1, 0⟩

/-- Fixture: a `single_choice` question, 1 point, correct set `{0}`. -/
def qSingle1 : Question :=
  ⟨1, 1, "q1", "single_choice", [optC, optW, optW], 1, 0⟩

/-- Fixture: a `multiple_choice` question, 1 point, correct set `{0, 1}`. -/
def qMulti2 : Question :=
  ⟨2, 1, "q2", "multiple_choice", [optC, optC, optW], 1, 1⟩

/-- Fixture: a quiz holding `qSingle1` and `qMulti2`, minimum score 70. -/
def quizTwo : Quiz :=
  ⟨1, "quiz", none, 70, false, [qSingle1, qMulti2]⟩

/-- Fixture: the stored instance block selecting both questions of `quizTwo`. -/
def instTwo : QuizInstanceDict :=
  ⟨1, [], [1, 2], some "h"⟩

/-- Fixture: answers for `quizTwo` — question 1 answered `0` (correct),
question 2 answered `[0]` (incomplete, hence incorrect). -/
def agTwo : AnswersGiven :=
  ⟨some instTwo, [(1, .int 0), (2, .list [0])]⟩

/-- Fixture: an in-progress attempt over `quizTwo` with answers `agTwo`. -/
def attemptTwo : QuizAttempt :=
  ⟨100, 42, 1, agTwo, 0, false, 1000, none, none, some quizTwo⟩

/-- Fixture: the same attempt graded against a catalog from which question 2
was deleted (`quizTwo` minus `qMulti2`); the stored instance block is
unchanged. -/
def attemptTwoPruned : QuizAttempt :=
  { attemptTwo with quiz := some { quizTwo with questions := [qSingle1] } }

/-- Fixture: quiz with one question and `question_pool_size = 0`. -/
def quizPoolZero : Quiz :=
  ⟨2, "pool zero", some 0, 70, true, [qSingle1]⟩

/-- Fixture: a store holding one completed and one in-progress attempt. -/
def storeTwo : AttemptStore :=
  ⟨[(100, attemptTwo),
    (101, { attemptTwo with id := 101, completed_at := some 2000, score := 50,
                            passed := false })]⟩

/-- Fixture: a negative-point question (`points` is an unconstrained integer
column and the admin routes apply `int(...)` with no sign check). -/
def qNegative : Question :=
  ⟨3, 3, "negative", "single_choice", [optC, optW], -1, 0⟩

/-- Fixture: a two-point companion question for the monotonicity
counterexample. -/
def qTwoPoints : Question :=
  ⟨4, 3, "two points", "single_choice", [optC, optW], 2, 1⟩

/-- Fixture: quiz holding the negative-point question. -/
def quizNeg : Quiz :=
  ⟨3, "neg", none, 70, false, [qNegative, qTwoPoints]⟩

/-- Fixture: attempt on `quizNeg` where the negative-point question is
answered incorrectly and the two-point question correctly. -/
def attemptNegBefore : QuizAttempt :=
  ⟨102, 42, 3, ⟨some ⟨3, [], [3, 4], some "h"⟩, [(3, .int 1), (4, .int 0)]⟩,
   0, false, 1000, none, none, some quizNeg⟩

/-- Fixture: the same attempt after replacing the incorrect answer to the
negative-point question by the correct one. -/
def attemptNegAfter : QuizAttempt :=
  { attemptNegBefore with
    answers_given := attemptNegBefore.answers_given.set 3 (.int 0) }

/-- The score field computed by `calculate_total_score` from accumulated
earned and total points: `round(points_earned / total_points * 100, 2)` with
the zero-total guard. -/
def scorePct (pe tp : Int) : ℚ :=
  roundTo2 (if 0 < tp then ((pe : ℚ) / (tp : ℚ)) * 100 else 0)

/-- Fixture: a quiz-instance dict as produced by `generate_quiz_instance`. -/
def instHashA : QuizInstanceDict :=
  ⟨7, [⟨3, "text A", "single_choice", 1, 0, [optC, optW], [(0, 1), (1, 0)]⟩],
   [3], none⟩

/-- Fixture: a quiz instance agreeing with `instHashA` on quiz id, ordered
question ids and answer mappings, but differing in every other field. -/
def instHashB : QuizInstanceDict :=
  ⟨7, [⟨3, "text B (edited)", "multiple_choice", 5, 2, [optW], [(0, 1), (1, 0)]⟩],
   [3], some "cached"⟩

/-- Fixture: a legacy attempt whose answer map has no `_quiz_instance` entry. -/
def attemptLegacy : QuizAttempt :=
  ⟨103, 42, 1, ⟨none, [(1, .int 0)]⟩, 0, false, 1000, none, none, some quizTwo⟩

/-- Fixture: `attemptTwo` as frozen by a successful completion at time 2000
(score 50.0, failed). -/
def completedTwoFixture : QuizAttempt :=
  { attemptTwo with completed_at := some 2000, time_taken := some 1000, score := 50, passed := false }

/-- Grader dispatch for a `single_choice` question goes to
`grade_single_choice`. -/
theorem gradeQ_single (q : Question) (ua : UserAnswer)
    (h : q.question_type = "single_choice") :
    gradeQ q ua = grade_single_choice q ua := by
  simp [gradeQ, h]

/-- Grader dispatch for a `multiple_choice` question goes to
`grade_multiple_choice`. -/
theorem gradeQ_multi (q : Question) (ua : UserAnswer)
    (h : q.question_type = "multiple_choice") :
    gradeQ q ua = grade_multiple_choice q ua := by
  simp [gradeQ, h]

/-- Explicit result of `grade_single_choice` on a matching question type. -/
theorem grade_single_choice_ok (q : Question) (ua : UserAnswer)
    (h : q.question_type = "single_choice") :
    grade_single_choice q ua =
      .ok ⟨ua.toList.length == 1 && q.correct_answers.contains (ua.toList.headD 0),
           if (ua.toList.length == 1 &&
               q.correct_answers.contains (ua.toList.headD 0) : Bool)
           then q.points else 0,
           q.correct_answers, ua.toList⟩ := by
  simp [grade_single_choice, h]

/-- Explicit result of `grade_multiple_choice` on a matching question type. -/
theorem grade_multiple_choice_ok (q : Question) (ua : UserAnswer)
    (h : q.question_type = "multiple_choice") :
    grade_multiple_choice q ua =
      .ok ⟨decide (ua.toList.toFinset = q.correct_answers.toFinset),
           if ua.toList.toFinset = q.correct_answers.toFinset then q.points else 0,
           q.correct_answers.dedup, ua.toList.dedup⟩ := by
  simp [grade_multiple_choice, h]

/-- The grader succeeds on every question of a known type. -/
theorem gradeQ_ok (q : Question) (ua : UserAnswer) (h : knownType q) :
    ∃ r, gradeQ q ua = .ok r := by
  rcases h with h | h
  · exact ⟨_, (gradeQ_single q ua h).trans (grade_single_choice_ok q ua h)⟩
  · exact ⟨_, (gradeQ_multi q ua h).trans (grade_multiple_choice_ok q ua h)⟩

/-- Any successful grading credits the question's points exactly when it is
marked correct. -/
theorem gradeQ_points_earned (q : Question) (ua : UserAnswer) (r : GradeResult)
    (h : gradeQ q ua = .ok r) :
    r.points_earned = if r.correct = true then q.points else 0 := by
  unfold gradeQ grade_single_choice grade_multiple_choice at h
  split_ifs at h <;> simp_all <;>
    (subst h; simp only [Bool.and_eq_true, beq_iff_eq, decide_eq_true_eq])

/-- `roundHalfEven` never rounds below the floor. -/
theorem roundHalfEven_ge_floor (x : ℚ) : ⌊x⌋ ≤ roundHalfEven x := by
  unfold roundHalfEven
  split_ifs <;> omega

/-- `roundHalfEven` never rounds above the floor plus one. -/
theorem roundHalfEven_le_floor_add_one (x : ℚ) : roundHalfEven x ≤ ⌊x⌋ + 1 := by
  unfold roundHalfEven
  split_ifs <;> omega

/-- Round-half-to-even is monotone. -/
theorem roundHalfEven_mono {x y : ℚ} (h : x ≤ y) :
    roundHalfEven x ≤ roundHalfEven y := by
  have hf : ⌊x⌋ ≤ ⌊y⌋ := Int.floor_mono h
  rcases eq_or_lt_of_le hf with heq | hlt
  · unfold roundHalfEven
    rw [← heq]
    split_ifs <;> first | omega | (exfalso; linarith)
  · have h1 := roundHalfEven_le_floor_add_one x
    have h2 := roundHalfEven_ge_floor y
    omega

/-- Python two-decimal rounding (exact model) is monotone. -/
theorem roundTo2_mono {x y : ℚ} (h : x ≤ y) : roundTo2 x ≤ roundTo2 y := by
  unfold roundTo2
  have h1 : x * 100 ≤ y * 100 := by linarith
  have h2 := roundHalfEven_mono h1
  have h3 : ((roundHalfEven (x * 100) : ℤ) : ℚ) ≤ ((roundHalfEven (y * 100) : ℤ) : ℚ) := by
    exact_mod_cast h2
  linarith

/-- Rounding zero gives zero. -/
theorem roundTo2_zero : roundTo2 0 = 0 := by
  unfold roundTo2 roundHalfEven
  norm_num

/-- Looking up the updated key after an in-place dict replacement. -/
theorem find_map_replace {β : Type} (l : List (Int × β)) (k : Int) (v : β)
    (hany : l.any (fun p => p.1 == k) = true) :
    (l.map (fun p => if p.1 == k then (k, v) else p)).find? (fun p => p.1 == k) =
      some (k, v) := by
  induction l with
  | nil => simp at hany
  | cons p rest ih =>
    by_cases hp : p.1 = k
    · have hk : (p.1 == k) = true := by simp [hp]
      simp only [List.map_cons, hk, if_true, List.find?_cons, BEq.refl]
    · have hk : (p.1 == k) = false := by simp [hp]
      simp only [List.any_cons, hk, Bool.false_or] at hany
      simp only [List.map_cons, hk, Bool.false_eq_true, if_false, List.find?_cons]
      exact ih hany

/-- Looking up the appended key after a fresh dict insertion. -/
theorem find_append_single {β : Type} (l : List (Int × β)) (k : Int) (v : β)
    (hany : l.any (fun p => p.1 == k) = false) :
    (l ++ [(k, v)]).find? (fun p => p.1 == k) = some (k, v) := by
  induction l with
  | nil => simp [List.find?_cons]
  | cons p rest ih =>
    simp only [List.any_cons, Bool.or_eq_false_iff] at hany
    simp only [List.cons_append, List.find?_cons, hany.1]
    exact ih hany.2

/-- Looking up a different key after an in-place dict replacement. -/
theorem find_map_replace_ne {β : Type} (l : List (Int × β)) (k k' : Int)
    (v : β) (hne : k' ≠ k) :
    (l.map (fun p => if p.1 == k then (k, v) else p)).find? (fun p => p.1 == k') =
      l.find? (fun p => p.1 == k') := by
  have hkk' : (k == k') = false := by
    simp only [beq_eq_false_iff_ne, ne_eq]
    exact fun h => hne h.symm
  induction l with
  | nil => simp
  | cons p rest ih =>
    by_cases hp : p.1 = k
    · have hk : (p.1 == k) = true := by simp [hp]
      have hpk' : (p.1 == k') = false := by rw [hp]; exact hkk'
      simp only [List.map_cons, hk, if_true, List.find?_cons, hkk', hpk']
      exact ih
    · have hk : (p.1 == k) = false := by simp [hp]
      simp only [List.map_cons, hk, Bool.false_eq_true, if_false, List.find?_cons]
      cases hp' : (p.1 == k') with
      | true => rfl
      | false => exact ih

/-- Looking up a different key after a fresh dict insertion. -/
theorem find_append_single_ne {β : Type} (l : List (Int × β)) (k k' : Int)
    (v : β) (hne : k' ≠ k) :
    (l ++ [(k, v)]).find? (fun p => p.1 == k') = l.find? (fun p => p.1 == k') := by
  have hkk' : (k == k') = false := by
    simp only [beq_eq_false_iff_ne, ne_eq]
    exact fun h => hne h.symm
  induction l with
  | nil => simp [List.find?_cons, hkk']
  | cons p rest ih =>
    simp only [List.cons_append, List.find?_cons]
    cases hp' : (p.1 == k') with
    | true => rfl
    | false => exact ih

/-- Setting an answer stores exactly that answer under the question id. -/
theorem AnswersGiven.get_set_self (ag : AnswersGiven) (k : Int) (v : UserAnswer) :
    (ag.set k v).get k = some v := by
  unfold AnswersGiven.set AnswersGiven.get setEntry
  dsimp only
  by_cases hany : ag.answers.any (fun p => p.1 == k) = true
  · rw [if_pos hany, find_map_replace ag.answers k v hany]
    rfl
  · have hfalse : ag.answers.any (fun p => p.1 == k) = false := by
      simp only [Bool.not_eq_true] at hany
      exact hany
    rw [if_neg hany, find_append_single ag.answers k v hfalse]
    rfl

/-- Setting an answer leaves every other question's answer unchanged. -/
theorem AnswersGiven.get_set_ne (ag : AnswersGiven) (k k' : Int) (v : UserAnswer)
    (hne : k' ≠ k) : (ag.set k v).get k' = ag.get k' := by
  unfold AnswersGiven.set AnswersGiven.get setEntry
  dsimp only
  by_cases hany : ag.answers.any (fun p => p.1 == k) = true
  · rw [if_pos hany, find_map_replace_ne ag.answers k k' v hne]
  · rw [if_neg hany, find_append_single_ne ag.answers k k' v hne]

/-- Setting an answer leaves the stored `_quiz_instance` block unchanged. -/
theorem AnswersGiven.set_quiz_instance (ag : AnswersGiven) (k : Int)
    (v : UserAnswer) : (ag.set k v).quiz_instance = ag.quiz_instance := rfl

/-- The scoring loop of `calculate_total_score`, in closed form: starting from
any accumulator it adds the earned-point sum, the total-point sum, the
correct count and the question count of the processed list, provided every
question type is one the dispatch understands. -/
theorem gradeLoop_eq (ag : AnswersGiven) (qs : List Question)
    (h : ∀ q ∈ qs, knownType q) (pe tp : Int) (qc tq : Nat) :
    gradeLoop ag qs pe tp qc tq =
      .ok (pe + earnedOf ag qs, tp + pointsOf qs, qc + correctCountOf ag qs,
           tq + qs.length) := by
  induction qs generalizing pe tp qc tq with
  | nil => simp [gradeLoop, earnedOf, pointsOf, correctCountOf]
  | cons q rest ih =>
    have hq : knownType q := h q (List.mem_cons_self q rest)
    have hrest : ∀ p ∈ rest, knownType p := fun p hp => h p (List.mem_cons_of_mem q hp)
    have he : earnedOf ag (q :: rest) = creditOf ag q + earnedOf ag rest := by
      simp [earnedOf]
    have hpt : pointsOf (q :: rest) = q.points + pointsOf rest := by
      simp [pointsOf]
    have hcc : correctCountOf ag (q :: rest) =
        correctCountOf ag rest + (if markedCorrect ag q = true then 1 else 0) := by
      simp [correctCountOf, List.countP_cons]
    cases hget : ag.get q.id with
    | none =>
      have hc : creditOf ag q = 0 := by simp [creditOf, hget]
      have hm : markedCorrect ag q = false := by simp [markedCorrect, hget]
      rw [he, hc, hpt, hcc, hm]
      simp only [gradeLoop, hget, ih hrest]
      refine congrArg _ ?_
      refine Prod.ext ?_ (Prod.ext ?_ (Prod.ext ?_ ?_)) <;> dsimp <;> omega
    | some ua =>
      obtain ⟨r, hr⟩ := gradeQ_ok q ua hq
      have hc : creditOf ag q = r.points_earned := by simp [creditOf, hget, hr]
      have hm : markedCorrect ag q = r.correct := by simp [markedCorrect, hget, hr]
      rw [he, hc, hpt, hcc, hm]
      simp only [gradeLoop, hget, hr, ih hrest]
      refine congrArg _ ?_
      refine Prod.ext ?_ (Prod.ext ?_ (Prod.ext ?_ ?_)) <;> dsimp
      · omega
      · omega
      · cases r.correct <;> simp <;> omega
      · omega

/-- `calculate_total_score`, in closed form over the question list the code
selects: the total is the point sum of that list, the earned points are the
credited sum, and the score field is the rounded percentage with the
zero-total guard. -/
theorem calculate_total_score_eq (attempt : QuizAttempt) (qz : Quiz)
    (hquiz : attempt.quiz = some qz)
    (h : ∀ q ∈ selectedQuestions qz attempt.answers_given, knownType q) :
    calculate_total_score attempt =
      .ok ⟨scorePct
             (earnedOf attempt.answers_given (selectedQuestions qz attempt.answers_given))
             (pointsOf (selectedQuestions qz attempt.answers_given)),
           earnedOf attempt.answers_given (selectedQuestions qz attempt.answers_given),
           pointsOf (selectedQuestions qz attempt.answers_given),
           correctCountOf attempt.answers_given (selectedQuestions qz attempt.answers_given),
           (selectedQuestions qz attempt.answers_given).length⟩ := by
  simp only [calculate_total_score, hquiz]
  rw [gradeLoop_eq attempt.answers_given _ h 0 0 0 0]
  simp [scorePct]

/-- `grade_attempt`, in closed form: the score data of
`calculate_total_score` extended with `determine_pass_fail` against the
quiz's minimum score. -/
theorem grade_attempt_eq (attempt : QuizAttempt) (qz : Quiz)
    (hquiz : attempt.quiz = some qz)
    (h : ∀ q ∈ selectedQuestions qz attempt.answers_given, knownType q) :
    grade_attempt attempt =
      .ok ⟨scorePct
             (earnedOf attempt.answers_given (selectedQuestions qz attempt.answers_given))
             (pointsOf (selectedQuestions qz attempt.answers_given)),
           earnedOf attempt.answers_given (selectedQuestions qz attempt.answers_given),
           pointsOf (selectedQuestions qz attempt.answers_given),
           correctCountOf attempt.answers_given (selectedQuestions qz attempt.answers_given),
           (selectedQuestions qz attempt.answers_given).length,
           determine_pass_fail
             (scorePct
               (earnedOf attempt.answers_given (selectedQuestions qz attempt.answers_given))
               (pointsOf (selectedQuestions qz attempt.answers_given)))
             (qz.minimum_score : ℚ)⟩ := by
  simp only [grade_attempt, calculate_total_score_eq attempt qz hquiz h, hquiz]

/-- The credited points of a question are its point value exactly when its
stored answer is graded correct, and zero otherwise (in particular zero when
it is unanswered). -/
theorem creditOf_eq (ag : AnswersGiven) (q : Question) :
    creditOf ag q = if markedCorrect ag q = true then q.points else 0 := by
  unfold creditOf markedCorrect
  cases hget : ag.get q.id with
  | none => simp
  | some ua =>
    cases hr : gradeQ q ua with
    | error e => simp [hr]
    | ok r => simpa [hr] using gradeQ_points_earned q ua r hr

/-- Reading back a freshly committed attempt row. -/
theorem AttemptStore.read_back_set (s : AttemptStore) (k : Int) (a : QuizAttempt) :
    (s.set k a).get k = some a := by
  unfold AttemptStore.set AttemptStore.get
  by_cases hany : s.attempts.any (fun p => p.1 == k) = true
  · rw [if_pos hany]
    dsimp only
    rw [find_map_replace s.attempts k a hany]
    rfl
  · have hfalse : s.attempts.any (fun p => p.1 == k) = false := by
      simp only [Bool.not_eq_true] at hany
      exact hany
    rw [if_neg hany]
    dsimp only
    rw [find_append_single s.attempts k a hfalse]
    rfl

/-- Every question selected by the scoring loop belongs to the quiz's current
catalog of questions. -/
theorem selectedQuestions_subset (qz : Quiz) (ag : AnswersGiven) :
    ∀ q ∈ selectedQuestions qz ag, q ∈ qz.questions := by
  intro q hq
  unfold selectedQuestions at hq
  dsimp only at hq
  split_ifs at hq with hsel
  · exact hq
  · exact (List.mem_filter.mp hq).1

/-- `scorePct` is monotone in earned points for a fixed total. -/
theorem scorePct_mono (pe pe' tp : Int) (h : pe ≤ pe') :
    scorePct pe tp ≤ scorePct pe' tp := by
  unfold scorePct
  by_cases htp : 0 < tp
  · simp only [htp, if_true]
    apply roundTo2_mono
    have hq : (pe : ℚ) ≤ (pe' : ℚ) := by exact_mod_cast h
    have htpq : (0 : ℚ) < (tp : ℚ) := by exact_mod_cast htp
    gcongr
  · simp [htp]

/-- The credited points of a question with an id other than the updated one
are unchanged by the update. -/
theorem creditOf_set_ne (ag : AnswersGiven) (qid : Int) (v : UserAnswer)
    (q : Question) (hne : q.id ≠ qid) :
    creditOf (ag.set qid v) q = creditOf ag q := by
  unfold creditOf
  rw [AnswersGiven.get_set_ne ag qid q.id v hne]

/-- Round-half-to-even fixes integers. -/
theorem roundHalfEven_intCast (n : ℤ) : roundHalfEven (n : ℚ) = n := by
  unfold roundHalfEven
  rw [Int.floor_intCast]
  norm_num

/-- Two-decimal rounding fixes integers. -/
theorem roundTo2_intCast (n : ℤ) : roundTo2 (n : ℚ) = (n : ℚ) := by
  unfold roundTo2
  have h : ((n : ℚ) * 100) = ((n * 100 : ℤ) : ℚ) := by push_cast; ring
  rw [h, roundHalfEven_intCast]
  push_cast
  ring

/-- Evaluating `scorePct` when the exact percentage is an integer. -/
theorem scorePct_eval (pe tp : Int) (v : ℤ) (hpos : 0 < tp)
    (hv : (pe : ℚ) / (tp : ℚ) * 100 = (v : ℚ)) : scorePct pe tp = (v : ℚ) := by
  unfold scorePct
  rw [if_pos hpos, hv, roundTo2_intCast]

/-- `determine_pass_fail` holds exactly on the inclusive boundary and above. -/
theorem determine_pass_fail_iff (s m : ℚ) :
    determine_pass_fail s m = true ↔ m ≤ s := by
  simp [determine_pass_fail]

/-- Evaluation: grading the two-question fixture attempt (the spec's
end-to-end example) gives 1 of 2 points and a 50.0 score. -/
theorem calcTwo_eval : calculate_total_score attemptTwo = .ok ⟨50, 1, 2, 1, 2⟩ := by
  rw [calculate_total_score_eq attemptTwo quizTwo rfl (by decide)]
  rw [show selectedQuestions quizTwo attemptTwo.answers_given = [qSingle1, qMulti2]
      from by decide]
  rw [show earnedOf attemptTwo.answers_given [qSingle1, qMulti2] = 1 from by decide]
  rw [show pointsOf [qSingle1, qMulti2] = 2 from by decide]
  rw [show correctCountOf attemptTwo.answers_given [qSingle1, qMulti2] = 1
      from by decide]
  rw [scorePct_eval 1 2 50 (by norm_num) (by norm_num)]
  norm_num

/-- Evaluation: grading the same stored attempt after question 2 was deleted
from the catalog gives 1 of 1 points and a 100.0 score. -/
theorem calcPruned_eval :
    calculate_total_score attemptTwoPruned = .ok ⟨100, 1, 1, 1, 1⟩ := by
  rw [calculate_total_score_eq attemptTwoPruned { quizTwo with questions := [qSingle1] }
      rfl (by decide)]
  rw [show selectedQuestions { quizTwo with questions := [qSingle1] }
        attemptTwoPruned.answers_given = [qSingle1] from by decide]
  rw [show earnedOf attemptTwoPruned.answers_given [qSingle1] = 1 from by decide]
  rw [show pointsOf [qSingle1] = 1 from by decide]
  rw [show correctCountOf attemptTwoPruned.answers_given [qSingle1] = 1 from by decide]
  rw [scorePct_eval 1 1 100 (by norm_num) (by norm_num)]
  norm_num


/-- Evaluation: pass/fail summary of the two-question fixture attempt. -/
theorem gradeTwo_eval : grade_attempt attemptTwo = .ok ⟨50, 1, 2, 1, 2, false⟩ := by
  unfold grade_attempt
  rw [calcTwo_eval]
  norm_num [attemptTwo, quizTwo, determine_pass_fail, decide_eq_false_iff_not, not_le]

/-- Evaluation: pass/fail summary of the pruned-catalog attempt. -/
theorem gradePruned_eval :
    grade_attempt attemptTwoPruned = .ok ⟨100, 1, 1, 1, 1, true⟩ := by
  unfold grade_attempt
  rw [calcPruned_eval]
  norm_num [attemptTwoPruned, attemptTwo, quizTwo, determine_pass_fail,
    decide_eq_true_eq]

/-- Evaluation: the grading summary of the fixture attempt after completion
fields are stamped (grading ignores the timestamps). -/
theorem gradeTwoCompleted_eval :
    grade_attempt { attemptTwo with completed_at := some 2000, time_taken := some 1000 } = .ok ⟨50, 1, 2, 1, 2, false⟩ := by
  have h : calculate_total_score { attemptTwo with completed_at := some 2000, time_taken := some 1000 } = .ok ⟨50, 1, 2, 1, 2⟩ := calcTwo_eval
  unfold grade_attempt
  rw [h]
  norm_num [attemptTwo, quizTwo, determine_pass_fail, decide_eq_false_iff_not, not_le]

/-- Evaluation: the negative-point fixture before the answer change: 2 of 1
points, score 200. -/
theorem calcNegBefore_eval :
    calculate_total_score attemptNegBefore = .ok ⟨200, 2, 1, 1, 2⟩ := by
  rw [calculate_total_score_eq attemptNegBefore quizNeg rfl (by decide)]
  rw [show selectedQuestions quizNeg attemptNegBefore.answers_given =
        [qNegative, qTwoPoints] from by decide]
  rw [show earnedOf attemptNegBefore.answers_given [qNegative, qTwoPoints] = 2
      from by decide]
  rw [show pointsOf [qNegative, qTwoPoints] = 1 from by decide]
  rw [show correctCountOf attemptNegBefore.answers_given [qNegative, qTwoPoints] = 1
      from by decide]
  rw [scorePct_eval 2 1 200 (by norm_num) (by norm_num)]
  norm_num

/-- Evaluation: the negative-point fixture after the incorrect answer is
replaced by the correct one: 1 of 1 points, score 100 (lower than before). -/
theorem calcNegAfter_eval :
    calculate_total_score attemptNegAfter = .ok ⟨100, 1, 1, 2, 2⟩ := by
  rw [calculate_total_score_eq attemptNegAfter quizNeg rfl (by decide)]
  rw [show selectedQuestions quizNeg attemptNegAfter.answers_given =
        [qNegative, qTwoPoints] from by decide]
  rw [show earnedOf attemptNegAfter.answers_given [qNegative, qTwoPoints] = 1
      from by decide]
  rw [show pointsOf [qNegative, qTwoPoints] = 1 from by decide]
  rw [show correctCountOf attemptNegAfter.answers_given [qNegative, qTwoPoints] = 2
      from by decide]
  rw [scorePct_eval 1 1 100 (by norm_num) (by norm_num)]
  norm_num

/-- Claim C1: for every `single_choice` question, the grader marks the
submission correct if and only if exactly one option index was submitted and
that index is a member of the question's correct-option set; and (second
conjunct) it does not additionally require the correct-option set to be a
singleton — a question with two correct options grades a single submitted
correct index as correct. -/
theorem C1_single_choice_grading :
    (∀ (q : Question) (ua : UserAnswer), q.question_type = "single_choice" →
       ∃ r, grade_single_choice q ua = .ok r ∧
         (r.correct = true ↔
           ua.toList.length = 1 ∧ ua.toList.headD 0 ∈ q.correct_answers)) ∧
    (∃ q : Question, q.question_type = "single_choice" ∧
       2 ≤ q.correct_answers.length ∧
       ∃ ua r, grade_single_choice q ua = .ok r ∧ r.correct = true) := by
  constructor
  · intro q ua h
    refine ⟨_, grade_single_choice_ok q ua h, ?_⟩
    simp
  · refine ⟨qSingleTwoCorrect, rfl, by decide, .int 0, _,
      grade_single_choice_ok qSingleTwoCorrect (.int 0) rfl, by decide⟩

/-- Witness for C1 at a concrete input: a `single_choice` question whose
correct set is `{0, 1}` grades the bare submission `1`. -/
theorem C1_single_choice_grading_witness :
    ∃ r, grade_single_choice qSingleTwoCorrect (UserAnswer.int 1) = .ok r ∧
      (r.correct = true ↔
        (UserAnswer.int 1).toList.length = 1 ∧
        (UserAnswer.int 1).toList.headD 0 ∈ qSingleTwoCorrect.correct_answers) :=
  C1_single_choice_grading.1 qSingleTwoCorrect (.int 1) rfl

/-- Claim C6: for every `multiple_choice` question, the grader marks the
submission correct if and only if the submitted index set equals the
correct-option set; strict subsets and strict supersets are graded
incorrect. -/
theorem C6_multiple_choice_grading :
    ∀ (q : Question) (ua : UserAnswer), q.question_type = "multiple_choice" →
      ∃ r, grade_multiple_choice q ua = .ok r ∧
        (r.correct = true ↔ ua.toList.toFinset = q.correct_answers.toFinset) ∧
        (ua.toList.toFinset ⊂ q.correct_answers.toFinset → r.correct = false) ∧
        (q.correct_answers.toFinset ⊂ ua.toList.toFinset → r.correct = false) := by
  intro q ua h
  refine ⟨_, grade_multiple_choice_ok q ua h, ?_, ?_, ?_⟩
  · simp
  · intro hss
    simp only [decide_eq_false_iff_not]
    exact hss.ne
  · intro hss
    simp only [decide_eq_false_iff_not]
    exact fun heq => hss.ne heq.symm

/-- Witness for C6 at a concrete input: the spec's own example — correct set
`{0, 1}`, submission `[0]` — is graded by the theorem's characterization. -/
theorem C6_multiple_choice_grading_witness :
    ∃ r, grade_multiple_choice qMulti2 (UserAnswer.list [0]) = .ok r ∧
      (r.correct = true ↔
        (UserAnswer.list [0]).toList.toFinset = qMulti2.correct_answers.toFinset) ∧
      ((UserAnswer.list [0]).toList.toFinset ⊂ qMulti2.correct_answers.toFinset →
        r.correct = false) ∧
      (qMulti2.correct_answers.toFinset ⊂ (UserAnswer.list [0]).toList.toFinset →
        r.correct = false) :=
  C6_multiple_choice_grading qMulti2 (.list [0]) rfl

/-- Claim C10: `validate_quiz_integrity` returns `False` when the attempt is
missing or the expected hash is falsy (empty); returns `True` with no hash
comparison whenever the stored answer map has no `_quiz_instance` entry
(legacy bypass); and only when instance data is present does it recompute the
fingerprint and compare it with the expected hash. -/
theorem C10_integrity_validation :
    (∀ h : String, validate_quiz_integrity none h = false) ∧
    (∀ a : Option QuizAttempt, validate_quiz_integrity a "" = false) ∧
    (∀ (a : QuizAttempt) (h : String), a.answers_given.quiz_instance = none →
       h ≠ "" → validate_quiz_integrity (some a) h = true) ∧
    (∀ (a : QuizAttempt) (h : String) (qi : QuizInstanceDict),
       a.answers_given.quiz_instance = some qi → h ≠ "" →
       validate_quiz_integrity (some a) h = (generate_quiz_hash qi == h)) := by
  refine ⟨fun h => rfl, ?_, ?_, ?_⟩
  · intro a
    cases a with
    | none => rfl
    | some a => simp [validate_quiz_integrity]
  · intro a h hinst hne
    simp [validate_quiz_integrity, hinst, hne]
  · intro a h qi hinst hne
    simp [validate_quiz_integrity, hinst, hne]

/-- Witness for C10 at concrete inputs: missing attempt, empty hash, legacy
attempt without an instance block, and an attempt with a stored block. -/
theorem C10_integrity_validation_witness :
    validate_quiz_integrity none "x" = false ∧
    validate_quiz_integrity (some attemptLegacy) "" = false ∧
    validate_quiz_integrity (some attemptLegacy) "x" = true ∧
    validate_quiz_integrity (some attemptTwo) "x" =
      (generate_quiz_hash instTwo == "x") :=
  ⟨C10_integrity_validation.1 "x",
   C10_integrity_validation.2.1 (some attemptLegacy),
   C10_integrity_validation.2.2.1 attemptLegacy "x" rfl (by decide),
   C10_integrity_validation.2.2.2 attemptTwo "x" instTwo rfl (by decide)⟩

/-- Claim C7: completion is single-shot.  For an open attempt whose grading
succeeds, the first `complete_attempt` call freezes the graded record; a
second call on the resulting store returns the already-completed error
outcome (the code's message for `AlreadyCompletedError`) and leaves the
store — in particular the stored score and passed flag — exactly as the
first completion left them. -/
theorem C7_complete_attempt_single_shot (store : AttemptStore)
    (attempt_id now now2 : Int) (a a2 : QuizAttempt) (g : GradingSummary)
    (hget : store.get attempt_id = some a)
    (hopen : a.completed_at = none)
    (hg : grade_attempt { a with completed_at := some now, time_taken := some (now - a.started_at) } = .ok g)
    (ha2 : a2 = { a with completed_at := some now, time_taken := some (now - a.started_at), score := g.score_percentage, passed := g.passed }) :
    complete_attempt store attempt_id now =
      ((some a2, none), store.set attempt_id a2) ∧
    complete_attempt (store.set attempt_id a2) attempt_id now2 =
      ((none, some "Cette tentative est déjà terminée."), store.set attempt_id a2) ∧
    (store.set attempt_id a2).get attempt_id = some a2 ∧
    a2.score = g.score_percentage ∧ a2.passed = g.passed := by
  have hnot : a.is_completed = false := by
    unfold QuizAttempt.is_completed
    rw [hopen]
    rfl
  have hfirst : complete_attempt store attempt_id now =
      ((some a2, none), store.set attempt_id a2) := by
    unfold complete_attempt
    simp only [hget, hnot, Bool.false_eq_true, if_false, hg]
    rw [ha2]
  have hread : (store.set attempt_id a2).get attempt_id = some a2 :=
    AttemptStore.read_back_set store attempt_id a2
  have hdone : a2.is_completed = true := by
    rw [ha2]
    rfl
  have hsecond : complete_attempt (store.set attempt_id a2) attempt_id now2 =
      ((none, some "Cette tentative est déjà terminée."), store.set attempt_id a2) := by
    unfold complete_attempt
    simp only [hread, hdone, if_true]
  exact ⟨hfirst, hsecond, hread, by rw [ha2], by rw [ha2]⟩

/-- Witness for C7 at a concrete store: the second completion call on the
frozen fixture attempt is rejected and the stored record (score 50.0,
failed) is unchanged. -/
theorem C7_complete_attempt_single_shot_witness :
    complete_attempt (storeTwo.set 100 completedTwoFixture) 100 3000 =
      ((none, some "Cette tentative est déjà terminée."),
       storeTwo.set 100 completedTwoFixture) ∧
    (storeTwo.set 100 completedTwoFixture).get 100 = some completedTwoFixture ∧
    completedTwoFixture.score = (50 : ℚ) ∧ completedTwoFixture.passed = false := by
  have h := C7_complete_attempt_single_shot storeTwo 100 2000 3000 attemptTwo
    completedTwoFixture ⟨50, 1, 2, 1, 2, false⟩ rfl rfl gradeTwoCompleted_eval rfl
  exact ⟨h.2.1, h.2.2.1, h.2.2.2.1, h.2.2.2.2⟩

/-- Claim C8: `submit_answer` on a completed attempt returns the
completed-attempt error outcome and leaves the store (hence the attempt's
answer map) unchanged; and whenever `submit_answer` succeeds, the attempt
existed and was still in progress. -/
theorem C8_submit_answer_lifecycle :
    (∀ (store : AttemptStore) (attempt_id question_id : Int)
       (answer : UserAnswer) (a : QuizAttempt) (t : Int),
       store.get attempt_id = some a → a.completed_at = some t →
       submit_answer store attempt_id question_id answer =
         ((none, some "Cette tentative est déjà terminée."), store)) ∧
    (∀ (store : AttemptStore) (attempt_id question_id : Int)
       (answer : UserAnswer) (a' : QuizAttempt),
       (submit_answer store attempt_id question_id answer).1.1 = some a' →
       ∃ a, store.get attempt_id = some a ∧ a.completed_at = none) := by
  constructor
  · intro store attempt_id question_id answer a t hget hdone
    have hc : a.is_completed = true := by
      unfold QuizAttempt.is_completed
      rw [hdone]
      rfl
    unfold submit_answer
    simp only [hget, hc, if_true]
  · intro store attempt_id question_id answer a' hres
    unfold submit_answer at hres
    cases hget : store.get attempt_id with
    | none =>
      simp only [hget] at hres
      cases hres
    | some a =>
      simp only [hget] at hres
      by_cases hdone : a.is_completed = true
      · simp only [hdone, if_true] at hres
        cases hres
      · refine ⟨a, rfl, ?_⟩
        unfold QuizAttempt.is_completed at hdone
        cases hat : a.completed_at with
        | none => rfl
        | some t =>
          rw [hat] at hdone
          exact absurd rfl hdone

/-- Witness for C8 at a concrete store: submission to the completed fixture
attempt is rejected with the completed-attempt message and the store is
returned unchanged. -/
theorem C8_submit_answer_lifecycle_witness :
    submit_answer storeTwo 101 1 (UserAnswer.int 0) =
      ((none, some "Cette tentative est déjà terminée."), storeTwo) :=
  C8_submit_answer_lifecycle.1 storeTwo 101 1 (.int 0)
    { attemptTwo with id := 101, completed_at := some 2000, score := 50, passed := false }
    2000 rfl rfl

/-- Claim C4: the fingerprint is pure and deterministic — any two quiz
instances agreeing on quiz id, ordered selected question ids and per-question
answer mappings hash to the identical digest (whatever their other fields),
and the digest is by definition the hex-encoded SHA-256 of the key-sorted
JSON serialization of `{quiz_id, question_ids, mappings}`. -/
theorem C4_fingerprint_deterministic :
    (∀ i1 i2 : QuizInstanceDict, i1.quiz_id = i2.quiz_id →
       i1.questions.map (fun q => q.question_id) =
         i2.questions.map (fun q => q.question_id) →
       i1.questions.map (fun q => q.answer_mapping) =
         i2.questions.map (fun q => q.answer_mapping) →
       generate_quiz_hash i1 = generate_quiz_hash i2) ∧
    (∀ i : QuizInstanceDict,
       generate_quiz_hash i =
         sha256Hex (strToBytes (dumpsInstanceData (instanceData i)))) := by
  constructor
  · intro i1 i2 hq hid hmap
    unfold generate_quiz_hash
    have h : instanceData i1 = instanceData i2 := by
      unfold instanceData
      rw [hq, hid, hmap]
    rw [h]
  · intro i
    rfl

/-- Witness for C4 at concrete inputs: two instances that differ in question
text, type, points, option lists and cached hash but agree on id, selected
ids and mappings receive the identical digest. -/
theorem C4_fingerprint_deterministic_witness :
    generate_quiz_hash instHashA = generate_quiz_hash instHashB ∧
    instHashA ≠ instHashB :=
  ⟨C4_fingerprint_deterministic.1 instHashA instHashB rfl rfl rfl, by decide⟩

/-- Claim C2: for a graded attempt whose stored instance block selects a
nonempty id list, `totalPoints` is the point sum over the selected question
set, `pointsEarned` is the point sum over the selected questions answered and
graded correct, `scorePercentage` is `pointsEarned / totalPoints * 100`
rounded to two decimals (zero when `totalPoints` is zero), and `passed` holds
exactly when `scorePercentage` is at least the quiz's minimum score
(inclusive boundary). -/
theorem C2_score_aggregation (attempt : QuizAttempt) (qz : Quiz)
    (blk : QuizInstanceDict)
    (hquiz : attempt.quiz = some qz)
    (hblk : attempt.answers_given.quiz_instance = some blk)
    (hne : blk.question_ids ≠ [])
    (htype : ∀ q ∈ qz.questions, knownType q) :
    ∃ sd g, calculate_total_score attempt = .ok sd ∧
      grade_attempt attempt = .ok g ∧
      sd.total_points =
        pointsOf (qz.questions.filter (fun q => blk.question_ids.contains q.id)) ∧
      sd.points_earned =
        ((qz.questions.filter (fun q => blk.question_ids.contains q.id)).map
          (fun q => if markedCorrect attempt.answers_given q = true
                    then q.points else 0)).sum ∧
      sd.score_percentage =
        (if 0 < sd.total_points
         then roundTo2 ((sd.points_earned : ℚ) / (sd.total_points : ℚ) * 100)
         else 0) ∧
      (sd.total_points = 0 → sd.score_percentage = 0) ∧
      g.score_percentage = sd.score_percentage ∧
      (g.passed = true ↔ (qz.minimum_score : ℚ) ≤ sd.score_percentage) := by
  have hsel : selectedQuestions qz attempt.answers_given =
      qz.questions.filter (fun q => blk.question_ids.contains q.id) := by
    unfold selectedQuestions
    rw [hblk]
    simp [hne]
  have htypeL : ∀ q ∈ selectedQuestions qz attempt.answers_given, knownType q :=
    fun q hq => htype q (selectedQuestions_subset qz attempt.answers_given q hq)
  refine ⟨_, _, calculate_total_score_eq attempt qz hquiz htypeL,
    grade_attempt_eq attempt qz hquiz htypeL, ?_, ?_, ?_, ?_, ?_, ?_⟩
  · dsimp only
    rw [hsel]
  · dsimp only
    rw [hsel]
    unfold earnedOf
    exact congrArg List.sum
      (List.map_congr_left (fun q _ => creditOf_eq attempt.answers_given q))
  · dsimp only
    unfold scorePct
    by_cases hpos : 0 < pointsOf (selectedQuestions qz attempt.answers_given)
    · rw [if_pos hpos, if_pos hpos]
    · rw [if_neg hpos, if_neg hpos, roundTo2_zero]
  · dsimp only
    intro hzero
    unfold scorePct
    rw [hzero]
    simp [roundTo2_zero]
  · rfl
  · dsimp only
    exact determine_pass_fail_iff _ _

/-- Witness for C2 at the spec's end-to-end example: two questions worth one
point each, answers Q1 = 0 (correct) and Q2 = [0] (incorrect), minimum score
70. -/
theorem C2_score_aggregation_witness :
    ∃ sd g, calculate_total_score attemptTwo = .ok sd ∧
      grade_attempt attemptTwo = .ok g ∧
      sd.total_points =
        pointsOf (quizTwo.questions.filter
          (fun q => instTwo.question_ids.contains q.id)) ∧
      sd.points_earned =
        ((quizTwo.questions.filter (fun q => instTwo.question_ids.contains q.id)).map
          (fun q => if markedCorrect attemptTwo.answers_given q = true
                    then q.points else 0)).sum ∧
      sd.score_percentage =
        (if 0 < sd.total_points
         then roundTo2 ((sd.points_earned : ℚ) / (sd.total_points : ℚ) * 100)
         else 0) ∧
      (sd.total_points = 0 → sd.score_percentage = 0) ∧
      g.score_percentage = sd.score_percentage ∧
      (g.passed = true ↔ (quizTwo.minimum_score : ℚ) ≤ sd.score_percentage) :=
  C2_score_aggregation attemptTwo quizTwo instTwo rfl rfl (by decide) (by decide)

/-- Claim C3 (amended): grading uses the stored selected-id list, but reads
the question entities from the current catalog.  Two catalog states that
agree on the stored attempt record, on the quiz's minimum score and on the
current questions whose ids lie in the stored selection grade identically;
agreement on the stored instance block alone is not enough (see the
counterexample). -/
theorem C3_grading_depends_on_selected_catalog (a1 a2 : QuizAttempt)
    (qz1 qz2 : Quiz) (blk : QuizInstanceDict)
    (h1 : a1.quiz = some qz1) (h2 : a2.quiz = some qz2)
    (hag : a1.answers_given = a2.answers_given)
    (hblk : a1.answers_given.quiz_instance = some blk)
    (hne : blk.question_ids ≠ [])
    (hmin : qz1.minimum_score = qz2.minimum_score)
    (hfilter : qz1.questions.filter (fun q => blk.question_ids.contains q.id) =
               qz2.questions.filter (fun q => blk.question_ids.contains q.id)) :
    calculate_total_score a1 = calculate_total_score a2 ∧
    grade_attempt a1 = grade_attempt a2 := by
  have hsel1 : selectedQuestions qz1 a1.answers_given =
      qz1.questions.filter (fun q => blk.question_ids.contains q.id) := by
    unfold selectedQuestions
    rw [hblk]
    simp [hne]
  have hsel2 : selectedQuestions qz2 a2.answers_given =
      qz2.questions.filter (fun q => blk.question_ids.contains q.id) := by
    unfold selectedQuestions
    rw [← hag, hblk]
    simp [hne]
  have hcalc : calculate_total_score a1 = calculate_total_score a2 := by
    unfold calculate_total_score
    simp only [h1, h2]
    rw [hsel1, hsel2, hfilter, hag]
  refine ⟨hcalc, ?_⟩
  unfold grade_attempt
  simp only [h1, h2, hcalc, hmin]

/-- Counterexample to C3 as stated: the fixture attempt and the same attempt
graded after question 2 was deleted from the catalog agree on the whole
stored answer map (including the instance block), yet grading yields 50.0
(failed) versus 100.0 (passed). -/
theorem C3_catalog_edit_changes_grade :
    attemptTwo.answers_given = attemptTwoPruned.answers_given ∧
    attemptTwo.quiz = some quizTwo ∧
    attemptTwoPruned.quiz = some { quizTwo with questions := [qSingle1] } ∧
    calculate_total_score attemptTwo = .ok ⟨50, 1, 2, 1, 2⟩ ∧
    calculate_total_score attemptTwoPruned = .ok ⟨100, 1, 1, 1, 1⟩ ∧
    grade_attempt attemptTwo = .ok ⟨50, 1, 2, 1, 2, false⟩ ∧
    grade_attempt attemptTwoPruned = .ok ⟨100, 1, 1, 1, 1, true⟩ ∧
    calculate_total_score attemptTwo ≠ calculate_total_score attemptTwoPruned ∧
    grade_attempt attemptTwo ≠ grade_attempt attemptTwoPruned := by
  refine ⟨rfl, rfl, rfl, calcTwo_eval, calcPruned_eval, gradeTwo_eval,
    gradePruned_eval, ?_, ?_⟩
  · intro h
    rw [calcTwo_eval, calcPruned_eval] at h
    simp only [Except.ok.injEq, ScoreData.mk.injEq] at h
    exact absurd h.1 (by norm_num)
  · intro h
    rw [gradeTwo_eval, gradePruned_eval] at h
    simp only [Except.ok.injEq, GradingSummary.mk.injEq] at h
    exact absurd h.1 (by norm_num)

/-- Witness for the amended C3 at concrete catalogs: the fixture attempt and
a copy whose catalog carries an extra unselected question grade
identically. -/
theorem C3_grading_depends_on_selected_catalog_witness :
    calculate_total_score attemptTwo =
      calculate_total_score { attemptTwo with quiz := some { quizTwo with questions := [qSingle1, qMulti2, qNegative] } } ∧
    grade_attempt attemptTwo =
      grade_attempt { attemptTwo with quiz := some { quizTwo with questions := [qSingle1, qMulti2, qNegative] } } :=
  C3_grading_depends_on_selected_catalog attemptTwo
    { attemptTwo with quiz := some { quizTwo with questions := [qSingle1, qMulti2, qNegative] } }
    quizTwo { quizTwo with questions := [qSingle1, qMulti2, qNegative] } instTwo
    rfl rfl rfl rfl (by decide) rfl (by decide)

/-- Claim C5 (amended): for a quiz with a non-empty question set, a pool size
of 0 makes `randomize_question_selection` return an empty selection, so
`generate_quiz_instance` returns no instance (`None`) instead of one with all
questions; a negative pool size makes generation fail with the sampling
error; only the separate helper `Quiz.get_questions_for_attempt` treats a
pool size of 0 as "use all questions". -/
theorem C5_pool_size_nonpositive (quiz : Quiz) (hq : quiz.questions ≠ []) :
    (quiz.question_pool_size = some 0 →
       randomize_question_selection quiz quiz.question_pool_size = .ok [] ∧
       generate_quiz_instance (some quiz) = .ok none ∧
       quiz.get_questions_for_attempt = .ok quiz.questions) ∧
    (∀ k : Int, k < 0 → quiz.question_pool_size = some k →
       randomize_question_selection quiz quiz.question_pool_size =
         .error "Sample larger than population or is negative" ∧
       generate_quiz_instance (some quiz) =
         .error "Sample larger than population or is negative") := by
  have hlen : 0 < quiz.questions.length := List.length_pos.mpr hq
  constructor
  · intro h0
    have hr : randomize_question_selection quiz quiz.question_pool_size = .ok [] := by
      rw [h0]
      unfold randomize_question_selection
      have hc : ¬ ((quiz.questions.length : Int) ≤ (0 : Int)) := by omega
      have hmin : min (0 : Int) (quiz.questions.length : Int) = 0 := by omega
      simp only [hc, if_false]
      rw [hmin]
      unfold pySample
      have hcond : ¬ ((0 : Int) < 0 ∨ (quiz.questions.length : Int) < 0) := by omega
      rw [if_neg hcond]
      simp
    refine ⟨hr, ?_, ?_⟩
    · simp [generate_quiz_instance, hr]
    · unfold Quiz.get_questions_for_attempt
      rw [h0]
      simp
  · intro k hk hpool
    have hr : randomize_question_selection quiz quiz.question_pool_size =
        .error "Sample larger than population or is negative" := by
      rw [hpool]
      unfold randomize_question_selection
      have hc : ¬ ((quiz.questions.length : Int) ≤ k) := by omega
      have hmin : min k (quiz.questions.length : Int) = k := by omega
      simp only [hc, if_false]
      rw [hmin]
      unfold pySample
      rw [if_pos (Or.inl hk)]
    refine ⟨hr, ?_⟩
    simp only [generate_quiz_instance, hr]

/-- Counterexample to C5 as stated: a quiz with one question and pool size 0
does not generate an instance containing all questions — the selection is
empty and `generate_quiz_instance` returns `None`. -/
theorem C5_pool_zero_counterexample :
    quizPoolZero.question_pool_size = some 0 ∧
    quizPoolZero.questions = [qSingle1] ∧
    randomize_question_selection quizPoolZero quizPoolZero.question_pool_size =
      .ok [] ∧
    generate_quiz_instance (some quizPoolZero) = .ok none :=
  ⟨rfl, rfl, rfl, rfl⟩

/-- Witness for the amended C5 at a concrete quiz with one question and pool
size 0. -/
theorem C5_pool_size_nonpositive_witness :
    (quizPoolZero.question_pool_size = some 0 →
       randomize_question_selection quizPoolZero quizPoolZero.question_pool_size =
         .ok [] ∧
       generate_quiz_instance (some quizPoolZero) = .ok none ∧
       quizPoolZero.get_questions_for_attempt = .ok quizPoolZero.questions) ∧
    (∀ k : Int, k < 0 → quizPoolZero.question_pool_size = some k →
       randomize_question_selection quizPoolZero quizPoolZero.question_pool_size =
         .error "Sample larger than population or is negative" ∧
       generate_quiz_instance (some quizPoolZero) =
         .error "Sample larger than population or is negative") :=
  C5_pool_size_nonpositive quizPoolZero (by decide)

/-- Claim C9 (amended): holding all other answers fixed, replacing the
submitted answer of one question graded incorrect by an answer graded correct
never decreases the computed score percentage, provided every point value in
the catalog is nonnegative (the `points` column is an unchecked integer, and
a negative value breaks the claim — see the counterexample). -/
theorem C9_monotonicity_nonneg (a a' : QuizAttempt) (qz : Quiz) (qid : Int)
    (newAns : UserAnswer)
    (hquiz : a.quiz = some qz)
    (ha' : a' = { a with answers_given := a.answers_given.set qid newAns })
    (hpts : ∀ q ∈ qz.questions, 0 ≤ q.points)
    (htype : ∀ q ∈ qz.questions, knownType q)
    (hincorrect : ∀ q ∈ qz.questions, q.id = qid →
       markedCorrect a.answers_given q = false)
    (hcorrect : ∀ q ∈ qz.questions, q.id = qid →
       markedCorrect (a.answers_given.set qid newAns) q = true) :
    ∃ sd sd', calculate_total_score a = .ok sd ∧
      calculate_total_score a' = .ok sd' ∧
      sd.score_percentage ≤ sd'.score_percentage := by
  subst ha'
  have hsub := selectedQuestions_subset qz a.answers_given
  have htypeL : ∀ q ∈ selectedQuestions qz a.answers_given, knownType q :=
    fun q hq => htype q (hsub q hq)
  have h1 := calculate_total_score_eq a qz hquiz htypeL
  have h2 := calculate_total_score_eq
    { a with answers_given := a.answers_given.set qid newAns } qz hquiz htypeL
  refine ⟨_, _, h1, h2, ?_⟩
  dsimp only
  have hE : earnedOf a.answers_given (selectedQuestions qz a.answers_given) ≤
      earnedOf (a.answers_given.set qid newAns)
        (selectedQuestions qz a.answers_given) := by
    unfold earnedOf
    apply List.sum_le_sum
    intro q hq
    by_cases hid : q.id = qid
    · rw [creditOf_eq a.answers_given q,
          creditOf_eq (a.answers_given.set qid newAns) q,
          hincorrect q (hsub q hq) hid, hcorrect q (hsub q hq) hid]
      simpa using hpts q (hsub q hq)
    · rw [creditOf_set_ne a.answers_given qid newAns q hid]
  exact scorePct_mono _ _ _ hE

/-- Counterexample to C9 as stated: with a question worth -1 points (the
admin routes accept any integer), replacing its incorrect answer by the
correct one drops the score from 200.0 to 100.0. -/
theorem C9_negative_points_counterexample :
    attemptNegAfter =
      { attemptNegBefore with
        answers_given := attemptNegBefore.answers_given.set 3 (UserAnswer.int 0) } ∧
    attemptNegBefore.quiz = some quizNeg ∧
    qNegative ∈ quizNeg.questions ∧ qNegative.points = -1 ∧
    attemptNegBefore.answers_given.get 3 = some (UserAnswer.int 1) ∧
    markedCorrect attemptNegBefore.answers_given qNegative = false ∧
    markedCorrect attemptNegAfter.answers_given qNegative = true ∧
    calculate_total_score attemptNegBefore = .ok ⟨200, 2, 1, 1, 2⟩ ∧
    calculate_total_score attemptNegAfter = .ok ⟨100, 1, 1, 2, 2⟩ ∧
    (100 : ℚ) < 200 :=
  ⟨by decide, rfl, by decide, rfl, by decide, by decide, by decide,
   calcNegBefore_eval, calcNegAfter_eval, by norm_num⟩

/-- Witness for the amended C9 at a concrete attempt: changing the incorrect
multiple-choice answer `[0]` of the fixture attempt to the correct `[0, 1]`
does not decrease the score. -/
theorem C9_monotonicity_nonneg_witness :
    ∃ sd sd', calculate_total_score attemptTwo = .ok sd ∧
      calculate_total_score
        { attemptTwo with
          answers_given := attemptTwo.answers_given.set 2 (UserAnswer.list [0, 1]) } =
        .ok sd' ∧
      sd.score_percentage ≤ sd'.score_percentage :=
  C9_monotonicity_nonneg attemptTwo
    { attemptTwo with
      answers_given := attemptTwo.answers_given.set 2 (UserAnswer.list [0, 1]) }
    quizTwo 2 (.list [0, 1]) rfl rfl (by decide) (by decide) (by decide) (by decide)
